import Mathlib

/-!
Verification of the PlayerColour → neopixel colour mapper from
src/arduino (PlayerColour.hpp / PlayerColour.cpp).

The source declares `enum PlayerColour { RED, YELLOW, EMPTY }` and one
function `uint32_t playerColourToNeopixelColour(PlayerColour colour)`
whose body is a switch: RED ↦ 0xFF0000, YELLOW ↦ 0xFFFF00,
default ↦ 0x000000. Machine integers are modelled as `Nat` with explicit
bounds (the function returns a uint32_t, so we prove its results are
below 2^32).
-/

/-- The colour of a player (from `enum PlayerColour { RED, YELLOW, EMPTY }`
in PlayerColour.hpp). -/
inductive PlayerColour where
  | RED
  | YELLOW
  | EMPTY
deriving DecidableEq, Repr

/-- Convert a PlayerColour to a neopixel colour
(from `playerColourToNeopixelColour` in PlayerColour.cpp): a switch on
the colour returning 0xFF0000 for RED, 0xFFFF00 for YELLOW, and
0x000000 in the default branch. -/
def playerColourToNeopixelColour (colour : PlayerColour) : Nat :=
  match colour with
  | .RED => 0xFF0000
  | .YELLOW => 0xFFFF00
  | _ => 0x000000

/-- The same switch viewed on the underlying integer representation of
the enumeration (C++ gives RED = 0, YELLOW = 1, EMPTY = 2; an unsafe
cast upstream can coerce any other small integer into the enumeration,
and such a value falls into the switch's default branch). -/
def playerColourToNeopixelColourRaw (colour : Nat) : Nat :=
  match colour with
  | 0 => 0xFF0000
  | 1 => 0xFFFF00
  | _ => 0x000000

/-- State-threaded embedding of the function body over an arbitrary
ambient state `σ` (globals, display buffers, …). Each branch of the
switch only returns a constant; no statement in the body reads or
writes the ambient state, so every branch passes `s` through. -/
def playerColourToNeopixelColourIn (σ : Type) (colour : PlayerColour) (s : σ) :
    Nat × σ :=
  match colour with
  | .RED => (0xFF0000, s)
  | .YELLOW => (0xFFFF00, s)
  | _ => (0x000000, s)

/-- Ambient state after `n` successive calls of the function on the same
input, each call running in the state left by the previous one. -/
def callTimes (σ : Type) (colour : PlayerColour) : Nat → σ → σ
  | 0, s => s
  | Nat.succ n, s => callTimes σ colour n (playerColourToNeopixelColourIn σ colour s).2

/-- Packed RGB integer: red, green, blue 8-bit channels packed as
(R<<16 | G<<8 | B). -/
def packRGB (r g b : Nat) : Nat := (r <<< 16) ||| ((g <<< 8) ||| b)

/-- Red channel of a packed RGB integer: bits 16–23. -/
def redChannel (v : Nat) : Nat := (v >>> 16) % 256

/-- Green channel of a packed RGB integer: bits 8–15. -/
def greenChannel (v : Nat) : Nat := (v >>> 8) % 256

/-- Blue channel of a packed RGB integer: bits 0–7. -/
def blueChannel (v : Nat) : Nat := v % 256

/-- One function declaration of the public surface, as written in the
header file: its return type, its name, and its single parameter type. -/
structure FunctionDecl where
  returnType : String
  name : String
  paramType : String
deriving DecidableEq, Repr

/-- The public surface of PlayerColour.hpp: the header declares exactly
one function, `uint32_t playerColourToNeopixelColour(PlayerColour colour)`. -/
def publicSurface : List FunctionDecl :=
  [⟨"uint32_t", "playerColourToNeopixelColour", "PlayerColour"⟩]

/-- Claim C1: for each of the three defined enumeration values, the
mapping function returns exactly the literal constant of the spec's
table: 0xFF0000 for RED, 0xFFFF00 for YELLOW, 0x000000 for EMPTY. -/
theorem mapColour_defined_values :
    playerColourToNeopixelColour PlayerColour.RED = 0xFF0000 ∧
    playerColourToNeopixelColour PlayerColour.YELLOW = 0xFFFF00 ∧
    playerColourToNeopixelColour PlayerColour.EMPTY = 0x000000 :=
  ⟨rfl, rfl, rfl⟩

/-- Claim C2: every enumeration value other than RED and YELLOW maps to
0x000000, and so does every out-of-range value of the underlying
integer representation other than 0 (RED) and 1 (YELLOW); the function
never signals failure, it always produces this default. -/
theorem mapColour_default_black :
    (∀ c : PlayerColour, c ≠ PlayerColour.RED → c ≠ PlayerColour.YELLOW →
      playerColourToNeopixelColour c = 0x000000) ∧
    (∀ n : Nat, n ≠ 0 → n ≠ 1 → playerColourToNeopixelColourRaw n = 0x000000) := by
  constructor
  · intro c hr hy
    cases c with
    | RED => exact absurd rfl hr
    | YELLOW => exact absurd rfl hy
    | EMPTY => rfl
  · intro n h0 h1
    match n with
    | 0 => exact absurd rfl h0
    | 1 => exact absurd rfl h1
    | Nat.succ (Nat.succ m) => rfl

/-- Witness for C2: the default branch at the concrete inputs EMPTY and
the out-of-range underlying value 7. -/
theorem mapColour_default_black_witness :
    playerColourToNeopixelColour PlayerColour.EMPTY = 0x000000 ∧
    playerColourToNeopixelColourRaw 7 = 0x000000 :=
  ⟨mapColour_default_black.1 PlayerColour.EMPTY (by decide) (by decide),
   mapColour_default_black.2 7 (by decide) (by decide)⟩

/-- Claim C3: the codomain invariant — every result is one of the three
fixed constants 0xFF0000, 0xFFFF00, 0x000000, and each of the three is
actually attained, so the result set has exactly these three members. -/
theorem mapColour_codomain :
    (∀ c : PlayerColour,
      playerColourToNeopixelColour c = 0xFF0000 ∨
      playerColourToNeopixelColour c = 0xFFFF00 ∨
      playerColourToNeopixelColour c = 0x000000) ∧
    (∃ c, playerColourToNeopixelColour c = 0xFF0000) ∧
    (∃ c, playerColourToNeopixelColour c = 0xFFFF00) ∧
    (∃ c, playerColourToNeopixelColour c = 0x000000) := by
  refine ⟨fun c => ?_, ⟨PlayerColour.RED, rfl⟩, ⟨PlayerColour.YELLOW, rfl⟩,
    ⟨PlayerColour.EMPTY, rfl⟩⟩
  cases c with
  | RED => exact Or.inl rfl
  | YELLOW => exact Or.inr (Or.inl rfl)
  | EMPTY => exact Or.inr (Or.inr rfl)

/-- Claim C4: the mapping function is total and cannot fail — for every
value of the input type it produces a result, and that result fits in a
uint32 (is below 2^32). -/
theorem mapColour_total_uint32 :
    ∀ c : PlayerColour, playerColourToNeopixelColour c < 2 ^ 32 := by
  intro c
  cases c <;> decide

/-- Claim C5: the mapping function is deterministic — two calls on the
same input, in arbitrary and possibly different ambient states, yield
bit-identical outputs. -/
theorem mapColour_deterministic :
    ∀ (σ τ : Type) (c : PlayerColour) (s : σ) (t : τ),
      (playerColourToNeopixelColourIn σ c s).1 =
      (playerColourToNeopixelColourIn τ c t).1 := by
  intro σ τ c s t
  cases c <;> rfl

/-- Claim C6: every result fits in 24 bits and is exactly the packing
(R<<16 | G<<8 | B) of its own 8-bit red (bits 16–23), green
(bits 8–15) and blue (bits 0–7) channels. -/
theorem mapColour_packed_rgb :
    ∀ c : PlayerColour,
      playerColourToNeopixelColour c < 2 ^ 24 ∧
      playerColourToNeopixelColour c =
        packRGB (redChannel (playerColourToNeopixelColour c))
          (greenChannel (playerColourToNeopixelColour c))
          (blueChannel (playerColourToNeopixelColour c)) := by
  intro c
  cases c <;> exact ⟨by decide, by decide⟩

/-- Claim C7: the function has no side effects — a single call returns
the ambient state unchanged, and any number of repeated calls leaves
the ambient state exactly as it was. -/
theorem mapColour_no_side_effects :
    ∀ (σ : Type) (c : PlayerColour) (s : σ) (n : Nat),
      (playerColourToNeopixelColourIn σ c s).2 = s ∧
      callTimes σ c n s = s := by
  intro σ c s n
  have hone : ∀ t : σ, (playerColourToNeopixelColourIn σ c t).2 = t := by
    intro t
    cases c <;> rfl
  refine ⟨hone s, ?_⟩
  induction n generalizing s with
  | zero => rfl
  | succ m ih =>
    show callTimes σ c m (playerColourToNeopixelColourIn σ c s).2 = s
    rw [hone s]
    exact ih s

/-- Claim C8 counterexample: the public surface of the header is not a
single function named convertPlayerColourToDisplayColour — no
declaration of that name exists in the header. -/
theorem publicSurface_not_spec_name :
    publicSurface ≠ [⟨"uint32_t", "convertPlayerColourToDisplayColour", "PlayerColour"⟩] := by
  decide

/-- Claim C8 (amended): the public surface is exactly one function,
taking one value of the PlayerColour enumeration and returning a
uint32, and that function is named playerColourToNeopixelColour. -/
theorem publicSurface_single_function :
    publicSurface = [⟨"uint32_t", "playerColourToNeopixelColour", "PlayerColour"⟩] ∧
    publicSurface.length = 1 ∧
    ∀ c : PlayerColour, playerColourToNeopixelColour c < 2 ^ 32 := by
  refine ⟨rfl, rfl, fun c => ?_⟩
  cases c <;> decide

/-- Claim C9: the mapping is injective on the three defined enumeration
values — RED, YELLOW and EMPTY map to three pairwise distinct outputs,
so the two players' colours are distinguishable from each other and
from an empty cell. -/
theorem mapColour_injective_on_values :
    playerColourToNeopixelColour PlayerColour.RED ≠
      playerColourToNeopixelColour PlayerColour.YELLOW ∧
    playerColourToNeopixelColour PlayerColour.RED ≠
      playerColourToNeopixelColour PlayerColour.EMPTY ∧
    playerColourToNeopixelColour PlayerColour.YELLOW ≠
      playerColourToNeopixelColour PlayerColour.EMPTY := by
  refine ⟨?_, ?_, ?_⟩ <;> decide

/-- Claim C10: for every input the blue channel of the result is zero —
the low 8 bits are 0, i.e. the result is divisible by 256. -/
theorem mapColour_blue_zero :
    ∀ c : PlayerColour,
      blueChannel (playerColourToNeopixelColour c) = 0 ∧
      playerColourToNeopixelColour c % 256 = 0 := by
  intro c
  cases c <;> exact ⟨by decide, by decide⟩
